import Mathlib

/-!
Verification of the personalized feed composition engine of the GetPosts
repository (Cloudflare Worker, `src/src/index.js` and the unnamed variant
`src/unnamed/part_000`).

The embedding models the relational repository as in-memory tables:

* `DB.posts` is the `posts` table.  SQL `ORDER BY RAND()` is modelled by
  taking the rows in the order they appear in `DB.posts`; since every
  theorem below quantifies over all `DB` values, this covers every outcome
  of the random ordering.
* `DB.users` is the `users` table (only the columns used by the regional
  JOIN are kept).
* `DATE_SUB(NOW(), INTERVAL n DAY)` is modelled as `DB.now - n`, with
  timestamps measured in days as integers.
* SQL `SELECT ... WHERE pred ORDER BY key LIMIT n` becomes
  `((sqlOrderBy le (posts.filter pred)).take n)`; the sort is a sort
  consistent with the SQL comparator (tie order among equal keys is
  unspecified in SQL, so any consistent sort is a faithful model).
* `Math.random()` draws of the Fisher-Yates shuffle are supplied by a
  function `rand : Nat → Nat`; index `i` uses `rand i % (i + 1)`, exactly
  the range of `Math.floor(Math.random() * (i + 1))`.
* JavaScript `Set`s of post ids are modelled as `List Nat` used only for
  membership, which matches how the code uses them (spread into `NOT IN`
  filters).

Failure of repository queries (a rejected `db.execute` promise) is modelled
by explicit failure flags (`DBE`) and `Except` results; the two source
variants differ here and both are embedded (`...X` for `src/src/index.js`,
whose fetchers have no internal try/catch, and `...P` for
`src/unnamed/part_000`, whose fetchers catch and degrade).

Post enrichment (`enrichPostsWithUserData`) only reshapes presentation
fields and is outside every claim, so `handlePersonalizedFeed` is modelled
up to the candidate list it would enrich.
-/

namespace GetPosts

/-- A row of the `posts` table, restricted to the columns the feed
algorithm reads: `_id`, `username` (author), `timestamp`, `likes`,
`hearts`, `comments`. -/
structure Post where
  _id : Nat
  username : String
  timestamp : Int
  likes : Int
  hearts : Int
  comments : String
deriving DecidableEq, Repr

/-- A post together with the `feedType` provenance tag the fetchers attach
(`{ ...post, feedType: '...' }` in the source). -/
structure Candidate where
  post : Post
  feedType : String
deriving DecidableEq, Repr

/-- A row of the `users` table, restricted to the location columns used by
the regional JOIN. -/
structure UserRow where
  username : String
  city : Option String
  region : Option String
  country : Option String
deriving DecidableEq, Repr

/-- The result of `getUserDataAndRelationships`: the requesting user's row
plus the derived `friends` and `following` username lists. -/
structure UserData where
  username : String
  city : Option String
  region : Option String
  country : Option String
  friends : List String
  following : List String
deriving DecidableEq, Repr

/-- The repository state seen by one request: the `posts` and `users`
tables and the current time (in days).  The order of `DB.posts` doubles as
the `ORDER BY RAND()` order (see the file header). -/
structure DB where
  posts : List Post
  users : List UserRow
  now : Int
deriving Repr

/-- Insert `a` into `l` before the first element `b` with `le a b`;
auxiliary for `sqlOrderBy`. -/
def insertBy (le : α → α → Bool) (a : α) : List α → List α
  | [] => [a]
  | b :: t => if le a b then a :: b :: t else b :: insertBy le a t

/-- Model of SQL `ORDER BY`: an insertion sort by the Boolean comparator
`le` (`le a b` = "a may come before b"). -/
def sqlOrderBy (le : α → α → Bool) : List α → List α
  | [] => []
  | a :: t => insertBy le a (sqlOrderBy le t)

/-- SQL `ORDER BY p.timestamp DESC` (used by `getFollowingPosts`). -/
def newestLe (a b : Post) : Bool :=
  decide (b.timestamp ≤ a.timestamp)

/-- SQL `ORDER BY (p.likes + p.hearts + CHAR_LENGTH(p.comments)) DESC,
p.timestamp DESC` (used by `getFriendsPosts`). -/
def friendsLe (a b : Post) : Bool :=
  let ka := a.likes + a.hearts + (a.comments.length : Int)
  let kb := b.likes + b.hearts + (b.comments.length : Int)
  decide (kb < ka ∨ (ka = kb ∧ b.timestamp ≤ a.timestamp))

/-- SQL `ORDER BY (p.likes + p.hearts) DESC, p.timestamp DESC` (used by
the three regional tiers). -/
def regionalLe (a b : Post) : Bool :=
  let ka := a.likes + a.hearts
  let kb := b.likes + b.hearts
  decide (kb < ka ∨ (ka = kb ∧ b.timestamp ≤ a.timestamp))

/-- Swap the entries at positions `i` and `j` of a list (the body of the
Fisher-Yates loop `[shuffled[i], shuffled[j]] = [shuffled[j], shuffled[i]]`).
Out-of-range positions leave the list unchanged. -/
def swapList (l : List α) (i j : Nat) : List α :=
  match l[i]?, l[j]? with
  | some a, some b => (l.set i b).set j a
  | _, _ => l

/-- The loop of `shuffleArray`: `for (let i = length - 1; i > 0; i--)`,
swapping position `i` with position `rand i % (i + 1)`. -/
def shuffleGo (rand : Nat → Nat) : Nat → List α → List α
  | 0, arr => arr
  | i + 1, arr => shuffleGo rand i (swapList arr (i + 1) (rand (i + 1) % (i + 2)))

/-- `shuffleArray` from the source: a Fisher-Yates shuffle of a copy of the
input, with the random draws supplied by `rand`. -/
def shuffleArray (rand : Nat → Nat) (array : List α) : List α :=
  shuffleGo rand (array.length - 1) array

/-- `getRandomPosts` (discovery fetcher): posts newer than 7 days whose id
is not in the exclusion set, in `RAND()` order, limited to `count`, tagged
`'random'`.  Returns `[]` when `count <= 0`.  The `user` argument is passed
by every caller and unused, as in the source. -/
def getRandomPosts (db : DB) (user : UserData) (rv : List Nat) (count : Int) :
    List Candidate :=
  if count ≤ 0 then []
  else
    ((db.posts.filter (fun p =>
        decide (p.timestamp > db.now - 7 ∧ p._id ∉ rv))).take count.toNat).map
      (fun p => { post := p, feedType := "random" })

/-- `getFollowingPosts`: posts by followed users, newest first, limited to
`count`, tagged `'following'`; delegates entirely to `getRandomPosts` when
`count <= 0` or the `following` list is empty. -/
def getFollowingPosts (db : DB) (user : UserData) (rv : List Nat) (count : Int) :
    List Candidate :=
  if count ≤ 0 ∨ user.following = [] then
    getRandomPosts db user rv count
  else
    ((sqlOrderBy newestLe (db.posts.filter (fun p =>
        decide (p.username ∈ user.following ∧ p._id ∉ rv)))).take count.toNat).map
      (fun p => { post := p, feedType := "following" })

/-- `getFriendsPosts`: posts by friends, by descending engagement score
then newest, limited to `count`, tagged `'friends'`; delegates entirely to
`getRandomPosts` when `count <= 0` or the `friends` list is empty. -/
def getFriendsPosts (db : DB) (user : UserData) (rv : List Nat) (count : Int) :
    List Candidate :=
  if count ≤ 0 ∨ user.friends = [] then
    getRandomPosts db user rv count
  else
    ((sqlOrderBy friendsLe (db.posts.filter (fun p =>
        decide (p.username ∈ user.friends ∧ p._id ∉ rv)))).take count.toNat).map
      (fun p => { post := p, feedType := "friends" })

/-- City tier of `getRegionalPosts`: posts newer than 3 days by authors in
the requesting user's city (via the JOIN on `users`), excluding the user's
own posts and the exclusion set, tagged `'regional-city'`.  Empty when the
user has no city. -/
def regionalCityPosts (db : DB) (user : UserData) (rv : List Nat) (count : Int) :
    List Candidate :=
  match user.city with
  | none => []
  | some city =>
    ((sqlOrderBy regionalLe (db.posts.filter (fun p =>
        decide ((∃ w ∈ db.users, w.username = p.username ∧ w.city = some city) ∧
          p.username ≠ user.username ∧ p._id ∉ rv ∧
          p.timestamp > db.now - 3)))).take count.toNat).map
      (fun p => { post := p, feedType := "regional-city" })

/-- Region tier of `getRegionalPosts`: posts newer than 5 days by authors
in the user's region, excluding own posts, the exclusion set and the ids
`excl` already chosen by the city tier, tagged `'regional-region'`. -/
def regionalRegionPosts (db : DB) (user : UserData) (rv : List Nat)
    (excl : List Nat) (count : Int) : List Candidate :=
  match user.region with
  | none => []
  | some region =>
    ((sqlOrderBy regionalLe (db.posts.filter (fun p =>
        decide ((∃ w ∈ db.users, w.username = p.username ∧ w.region = some region) ∧
          p.username ≠ user.username ∧ p._id ∉ rv ∧ p._id ∉ excl ∧
          p.timestamp > db.now - 5)))).take count.toNat).map
      (fun p => { post := p, feedType := "regional-region" })

/-- Country tier of `getRegionalPosts`: posts newer than 7 days by authors
in the user's country, excluding own posts, the exclusion set and the ids
`excl` already chosen by earlier tiers, tagged `'regional-country'`. -/
def regionalCountryPosts (db : DB) (user : UserData) (rv : List Nat)
    (excl : List Nat) (count : Int) : List Candidate :=
  match user.country with
  | none => []
  | some country =>
    ((sqlOrderBy regionalLe (db.posts.filter (fun p =>
        decide ((∃ w ∈ db.users, w.username = p.username ∧ w.country = some country) ∧
          p.username ≠ user.username ∧ p._id ∉ rv ∧ p._id ∉ excl ∧
          p.timestamp > db.now - 7)))).take count.toNat).map
      (fun p => { post := p, feedType := "regional-country" })

/-- The three geographic tiers of `getRegionalPosts` in order, each later
tier invoked only while short of `count` and excluding the ids already
chosen by the earlier tiers (the `AND p._id NOT IN (...)` clause built from
`posts.map(p => p._id)`). -/
def regionalGeoPosts (db : DB) (user : UserData) (rv : List Nat) (count : Int) :
    List Candidate :=
  let c1 := regionalCityPosts db user rv count
  let c2 :=
    if (c1.length : Int) < count then
      c1 ++ regionalRegionPosts db user rv (c1.map (fun c => c.post._id))
        (count - c1.length)
    else c1
  if (c2.length : Int) < count then
    c2 ++ regionalCountryPosts db user rv (c2.map (fun c => c.post._id))
      (count - c2.length)
  else c2

/-- `getRegionalPosts`: the three geographic tiers, then any shortfall
filled from `getRandomPosts` (excluding the ids already chosen) retagged
`'regional-fallback'`, and the result cut to `count` by `slice(0, count)`.
Returns `[]` when `count <= 0`. -/
def getRegionalPosts (db : DB) (user : UserData) (rv : List Nat) (count : Int) :
    List Candidate :=
  if count ≤ 0 then []
  else
    let posts := regionalGeoPosts db user rv count
    let posts :=
      if (posts.length : Int) < count then
        posts ++ (getRandomPosts db user (rv ++ posts.map (fun c => c.post._id))
            (count - posts.length)).map
          (fun c => { post := c.post, feedType := "regional-fallback" })
      else posts
    posts.take count.toNat

/-- Steps 1-4 of `generateFeedComposition`: the four source fetchers in
their fixed order and fixed slot budget (random 4, following 3, friends 2,
regional 1), each invoked with the caller's `recentlyViewed` set `rv`. -/
def collectSourcePosts (db : DB) (user : UserData) (rv : List Nat) :
    List Candidate :=
  getRandomPosts db user rv 4 ++ getFollowingPosts db user rv 3 ++
    getFriendsPosts db user rv 2 ++ getRegionalPosts db user rv 1

/-- Step 5 of `generateFeedComposition`: if fewer than `limit` candidates
were collected, one more discovery fetch for the shortfall, excluding the
union of `rv` and every collected id (`new Set([...recentlyViewed,
...posts.map(p => p._id)])`); empty otherwise. -/
def topUpPosts (db : DB) (user : UserData) (rv : List Nat)
    (posts : List Candidate) (limit : Nat) : List Candidate :=
  if posts.length < limit then
    getRandomPosts db user (rv ++ posts.map (fun c => c.post._id))
      ((limit : Int) - posts.length)
  else []

/-- `generateFeedComposition` (success path): collect from the four
sources, top up the shortfall from discovery, shuffle, and truncate to
`limit`. -/
def generateFeedComposition (db : DB) (user : UserData) (rv : List Nat)
    (rand : Nat → Nat) (limit : Nat) : List Candidate :=
  let posts := collectSourcePosts db user rv
  let posts := posts ++ topUpPosts db user rv posts limit
  (shuffleArray rand posts).take limit

/-- The repository as seen by `handlePersonalizedFeed`: the tables plus the
outcomes of the two preliminary queries, each of which may fail
(`Except.error` models a rejected `db.execute` promise).
`userResult = Except.ok none` models a user row not found. -/
structure Repo where
  db : DB
  userResult : Except String (Option UserData)
  viewsResult : Except String (List Nat)

/-- `getRecentlyViewedPosts`: the recent-view query, with the catch branch
`return new Set()` on repository failure. -/
def getRecentlyViewedPosts (repo : Repo) : List Nat :=
  match repo.viewsResult with
  | Except.ok rows => rows
  | Except.error _ => []

/-- The outcome of `handlePersonalizedFeed`: a 404 response, a 500
response, or a 200 response carrying the composed page (post enrichment,
which only reshapes presentation fields, is omitted). -/
inductive FeedOutcome where
  | notFound : FeedOutcome
  | serverError : FeedOutcome
  | page : List Candidate → FeedOutcome
deriving DecidableEq, Repr

/-- `handlePersonalizedFeed`: a failing relationship resolution rethrows
and is caught by the handler's catch (500); a missing user yields 404;
otherwise the feed is composed with the recently-viewed exclusion set. -/
def handlePersonalizedFeed (repo : Repo) (rand : Nat → Nat) (limit : Nat) :
    FeedOutcome :=
  match repo.userResult with
  | Except.error _ => FeedOutcome.serverError
  | Except.ok none => FeedOutcome.notFound
  | Except.ok (some userData) =>
      FeedOutcome.page
        (generateFeedComposition repo.db userData (getRecentlyViewedPosts repo)
          rand limit)

/-- A repository whose individual posts queries may fail: `failRandom`
makes the discovery query reject, and likewise for the queries specific to
the following, friends and regional fetchers. -/
structure DBE where
  db : DB
  failRandom : Bool
  failFollowing : Bool
  failFriends : Bool
  failRegional : Bool

/-- `getRandomPosts` of `src/src/index.js`, which has no internal
try/catch: a rejected query propagates (`Except.error`). -/
def getRandomPostsX (dbe : DBE) (user : UserData) (rv : List Nat) (count : Int) :
    Except String (List Candidate) :=
  if count ≤ 0 then Except.ok []
  else if dbe.failRandom then Except.error "db error"
  else Except.ok (getRandomPosts dbe.db user rv count)

/-- `getFollowingPosts` of `src/src/index.js` (no internal try/catch). -/
def getFollowingPostsX (dbe : DBE) (user : UserData) (rv : List Nat) (count : Int) :
    Except String (List Candidate) :=
  if count ≤ 0 ∨ user.following = [] then getRandomPostsX dbe user rv count
  else if dbe.failFollowing then Except.error "db error"
  else Except.ok (getFollowingPosts dbe.db user rv count)

/-- `getFriendsPosts` of `src/src/index.js` (no internal try/catch). -/
def getFriendsPostsX (dbe : DBE) (user : UserData) (rv : List Nat) (count : Int) :
    Except String (List Candidate) :=
  if count ≤ 0 ∨ user.friends = [] then getRandomPostsX dbe user rv count
  else if dbe.failFriends then Except.error "db error"
  else Except.ok (getFriendsPosts dbe.db user rv count)

/-- `getRegionalPosts` of `src/src/index.js` (no internal try/catch): a
rejected tier query propagates, and the internal discovery fallback is the
throwing `getRandomPostsX`. -/
def getRegionalPostsX (dbe : DBE) (user : UserData) (rv : List Nat) (count : Int) :
    Except String (List Candidate) :=
  if count ≤ 0 then Except.ok []
  else if dbe.failRegional then Except.error "db error"
  else
    let posts := regionalGeoPosts dbe.db user rv count
    if (posts.length : Int) < count then
      match getRandomPostsX dbe user (rv ++ posts.map (fun c => c.post._id))
          (count - posts.length) with
      | Except.ok add =>
          Except.ok ((posts ++ add.map
            (fun c => ({ post := c.post, feedType := "regional-fallback" } :
              Candidate))).take count.toNat)
      | Except.error e => Except.error e
    else Except.ok (posts.take count.toNat)

/-- The try block of `generateFeedComposition` in `src/src/index.js`:
collect from the four sources in order and top up the shortfall, where the
first rejected query aborts the block with its error (the semantics of
`await` raising inside `try`). -/
def feedAttemptX (dbe : DBE) (user : UserData) (rv : List Nat)
    (rand : Nat → Nat) (limit : Nat) : Except String (List Candidate) :=
  match getRandomPostsX dbe user rv 4 with
  | Except.error e => Except.error e
  | Except.ok randomPosts =>
  match getFollowingPostsX dbe user rv 3 with
  | Except.error e => Except.error e
  | Except.ok followingPosts =>
  match getFriendsPostsX dbe user rv 2 with
  | Except.error e => Except.error e
  | Except.ok friendsPosts =>
  match getRegionalPostsX dbe user rv 1 with
  | Except.error e => Except.error e
  | Except.ok regionalPosts =>
  let posts := randomPosts ++ followingPosts ++ friendsPosts ++ regionalPosts
  match (if posts.length < limit then
      match getRandomPostsX dbe user (rv ++ posts.map (fun c => c.post._id))
          ((limit : Int) - posts.length) with
      | Except.error e => Except.error e
      | Except.ok additionalRandom => Except.ok (posts ++ additionalRandom)
    else Except.ok posts) with
  | Except.error e => Except.error e
  | Except.ok posts => Except.ok ((shuffleArray rand posts).take limit)

/-- `generateFeedComposition` of `src/src/index.js` with failure modelled:
any error of the try block is caught and answered by the single
discovery-only fallback `getRandomPosts(db, userData, recentlyViewed,
limit)` (which itself can still fail when the repository is unreachable). -/
def generateFeedCompositionX (dbe : DBE) (user : UserData) (rv : List Nat)
    (rand : Nat → Nat) (limit : Nat) : Except String (List Candidate) :=
  match feedAttemptX dbe user rv rand limit with
  | Except.ok posts => Except.ok posts
  | Except.error _ => getRandomPostsX dbe user rv limit

/-- `getRandomPosts` of `src/unnamed/part_000`: its try/catch degrades a
rejected query to `[]`. -/
def getRandomPostsP (dbe : DBE) (user : UserData) (rv : List Nat) (count : Int) :
    List Candidate :=
  if count ≤ 0 then []
  else if dbe.failRandom then []
  else getRandomPosts dbe.db user rv count

/-- `getFollowingPosts` of `src/unnamed/part_000`: its catch degrades to
`getRandomPosts(db, userData, recentlyViewed, count)`. -/
def getFollowingPostsP (dbe : DBE) (user : UserData) (rv : List Nat) (count : Int) :
    List Candidate :=
  if count ≤ 0 ∨ user.following = [] then getRandomPostsP dbe user rv count
  else if dbe.failFollowing then getRandomPostsP dbe user rv count
  else getFollowingPosts dbe.db user rv count

/-- `getFriendsPosts` of `src/unnamed/part_000`: its catch degrades to
`getRandomPosts(db, userData, recentlyViewed, count)`. -/
def getFriendsPostsP (dbe : DBE) (user : UserData) (rv : List Nat) (count : Int) :
    List Candidate :=
  if count ≤ 0 ∨ user.friends = [] then getRandomPostsP dbe user rv count
  else if dbe.failFriends then getRandomPostsP dbe user rv count
  else getFriendsPosts dbe.db user rv count

/-- `getRegionalPosts` of `src/unnamed/part_000`: a failing tier query is
caught and degrades to `getRandomPosts`; the internal discovery fallback is
the non-throwing `getRandomPostsP`. -/
def getRegionalPostsP (dbe : DBE) (user : UserData) (rv : List Nat) (count : Int) :
    List Candidate :=
  if count ≤ 0 then []
  else if dbe.failRegional then getRandomPostsP dbe user rv count
  else
    let posts := regionalGeoPosts dbe.db user rv count
    let posts :=
      if (posts.length : Int) < count then
        posts ++ (getRandomPostsP dbe user (rv ++ posts.map (fun c => c.post._id))
            (count - posts.length)).map
          (fun c => { post := c.post, feedType := "regional-fallback" })
      else posts
    posts.take count.toNat

/-! Concrete fixtures used by the counterexamples and witnesses. -/

/-- A single fresh post by `bob`. -/
def postOne : Post :=
  { _id := 1, username := "bob", timestamp := 100, likes := 0, hearts := 0,
    comments := "" }

/-- A repository holding exactly one eligible post. -/
def dbOne : DB :=
  { posts := [postOne], users := [], now := 100 }

/-- A user who follows `bob` and has no friends and no location. -/
def aliceFollows : UserData :=
  { username := "alice", city := none, region := none, country := none,
    friends := [], following := ["bob"] }

/-- A user with no relationships and no location. -/
def aliceAlone : UserData :=
  { username := "alice", city := none, region := none, country := none,
    friends := [], following := [] }

/-- A fixed random source for the fixtures (every draw is 0). -/
def randZero : Nat → Nat := fun _ => 0

/-- Fresh post number `n` by `bob`. -/
def freshPost (n : Nat) : Post :=
  { _id := n, username := "bob", timestamp := 100, likes := 0, hearts := 0,
    comments := "" }

/-- A repository holding six eligible posts. -/
def dbSix : DB :=
  { posts := [freshPost 1, freshPost 2, freshPost 3, freshPost 4, freshPost 5,
      freshPost 6], users := [], now := 100 }

/-- User rows for the regional fixture: `bob` shares alice's city, `carol`
only her region. -/
def geoUsers : List UserRow :=
  [ { username := "bob", city := some "lyon", region := some "ara",
      country := some "fr" },
    { username := "carol", city := some "nice", region := some "ara",
      country := some "fr" } ]

/-- A fresh post by `bob` for the regional fixture. -/
def bobPost : Post :=
  { _id := 11, username := "bob", timestamp := 99, likes := 5, hearts := 0,
    comments := "" }

/-- A fresh post by `carol` for the regional fixture. -/
def carolPost : Post :=
  { _id := 12, username := "carol", timestamp := 99, likes := 2, hearts := 0,
    comments := "" }

/-- The regional fixture repository. -/
def dbGeo : DB :=
  { posts := [bobPost, carolPost], users := geoUsers, now := 100 }

/-- A located user for the regional fixture. -/
def aliceGeo : UserData :=
  { username := "alice", city := some "lyon", region := some "ara",
    country := some "fr", friends := [], following := [] }

/-- A repository whose recent-view query fails but whose user query
succeeds. -/
def repoViewsFail : Repo :=
  { db := dbOne, userResult := Except.ok (some aliceAlone),
    viewsResult := Except.error "views query failed" }

/-- A repository whose relationship resolution fails. -/
def repoUserFail : Repo :=
  { db := dbOne, userResult := Except.error "relationship query failed",
    viewsResult := Except.ok [] }

/-- What `getRegionalPosts` guarantees of each candidate it returns: its id
avoids the caller's exclusion set, its tag is one of the three geographic
tiers or the discovery fallback, and each geographic tag certifies the
corresponding author-location match (via the `users` JOIN), the exclusion
of the requesting user's own posts, and the tier's recency bound (3, 5 or
7 days); a fallback candidate satisfies the discovery recency bound. -/
def RegionalCandidateOk (db : DB) (user : UserData) (rv : List Nat)
    (c : Candidate) : Prop :=
  c.post._id ∉ rv ∧
  c.feedType ∈ (["regional-city", "regional-region", "regional-country",
    "regional-fallback"] : List String) ∧
  (c.feedType = "regional-city" →
    c.post.username ≠ user.username ∧ c.post.timestamp > db.now - 3 ∧
    user.city ≠ none ∧
    ∃ w ∈ db.users, w.username = c.post.username ∧ w.city = user.city) ∧
  (c.feedType = "regional-region" →
    c.post.username ≠ user.username ∧ c.post.timestamp > db.now - 5 ∧
    user.region ≠ none ∧
    ∃ w ∈ db.users, w.username = c.post.username ∧ w.region = user.region) ∧
  (c.feedType = "regional-country" →
    c.post.username ≠ user.username ∧ c.post.timestamp > db.now - 7 ∧
    user.country ≠ none ∧
    ∃ w ∈ db.users, w.username = c.post.username ∧ w.country = user.country) ∧
  (c.feedType = "regional-fallback" → c.post.timestamp > db.now - 7)

/-- A repository where only the regional tier queries fail. -/
def dbeRegionalFail : DBE :=
  { db := dbOne, failRandom := false, failFollowing := false,
    failFriends := false, failRegional := true }

/-- A repository where every posts query fails. -/
def dbeAllFail : DBE :=
  { db := dbOne, failRandom := true, failFollowing := true,
    failFriends := true, failRegional := true }

/-! Helper lemmas about the sorting and shuffling primitives. -/

theorem mem_insertBy {le : α → α → Bool} {a x : α} {l : List α} :
    x ∈ insertBy le a l ↔ x = a ∨ x ∈ l := by
  induction l with
  | nil => simp [insertBy]
  | cons b t ih =>
    by_cases h : le a b
    · simp [insertBy, h]
    · simp [insertBy, h, ih]
      tauto

theorem mem_sqlOrderBy {le : α → α → Bool} {x : α} {l : List α} :
    x ∈ sqlOrderBy le l ↔ x ∈ l := by
  induction l with
  | nil => simp [sqlOrderBy]
  | cons a t ih => simp [sqlOrderBy, mem_insertBy, ih]

theorem mem_swapList {l : List α} {i j : Nat} {x : α} (h : x ∈ swapList l i j) :
    x ∈ l := by
  unfold swapList at h
  split at h
  · next a b h1 h2 =>
    rcases List.mem_or_eq_of_mem_set h with h' | rfl
    · rcases List.mem_or_eq_of_mem_set h' with h'' | rfl
      · exact h''
      · exact List.getElem?_mem h2
    · exact List.getElem?_mem h1
  · exact h

theorem length_swapList (l : List α) (i j : Nat) :
    (swapList l i j).length = l.length := by
  unfold swapList
  split <;> simp

theorem mem_shuffleGo {rand : Nat → Nat} {n : Nat} {l : List α} {x : α}
    (h : x ∈ shuffleGo rand n l) : x ∈ l := by
  induction n generalizing l with
  | zero => exact h
  | succ i ih => exact mem_swapList (ih h)

theorem length_shuffleGo (rand : Nat → Nat) (n : Nat) (l : List α) :
    (shuffleGo rand n l).length = l.length := by
  induction n generalizing l with
  | zero => rfl
  | succ i ih => rw [shuffleGo, ih, length_swapList]

theorem mem_shuffleArray {rand : Nat → Nat} {l : List α} {x : α}
    (h : x ∈ shuffleArray rand l) : x ∈ l :=
  mem_shuffleGo h

theorem length_shuffleArray (rand : Nat → Nat) (l : List α) :
    (shuffleArray rand l).length = l.length :=
  length_shuffleGo rand (l.length - 1) l

/-! Helper lemmas about the source fetchers. -/

theorem getRandomPosts_mem {db : DB} {user : UserData} {rv : List Nat}
    {count : Int} {c : Candidate} (h : c ∈ getRandomPosts db user rv count) :
    c.feedType = "random" ∧ c.post._id ∉ rv ∧ c.post.timestamp > db.now - 7 := by
  unfold getRandomPosts at h
  split at h
  · simp at h
  · rcases List.mem_map.mp h with ⟨p, hp, rfl⟩
    have hp2 := List.mem_filter.mp (List.mem_of_mem_take hp)
    have hc := of_decide_eq_true hp2.2
    exact ⟨rfl, hc.2, hc.1⟩

theorem getRandomPosts_length (db : DB) (user : UserData) (rv : List Nat)
    (count : Int) : (getRandomPosts db user rv count).length ≤ count.toNat := by
  unfold getRandomPosts
  split
  · simp
  · simp [List.length_take]

theorem getFollowingPosts_mem {db : DB} {user : UserData} {rv : List Nat}
    {count : Int} {c : Candidate} (h : c ∈ getFollowingPosts db user rv count) :
    c.post._id ∉ rv ∧ (c.feedType = "following" ∨ c.feedType = "random") := by
  unfold getFollowingPosts at h
  split at h
  · have hr := getRandomPosts_mem h
    exact ⟨hr.2.1, Or.inr hr.1⟩
  · rcases List.mem_map.mp h with ⟨p, hp, rfl⟩
    have hp2 := List.mem_filter.mp (mem_sqlOrderBy.mp (List.mem_of_mem_take hp))
    have hc := of_decide_eq_true hp2.2
    exact ⟨hc.2, Or.inl rfl⟩

theorem getFollowingPosts_length (db : DB) (user : UserData) (rv : List Nat)
    (count : Int) : (getFollowingPosts db user rv count).length ≤ count.toNat := by
  unfold getFollowingPosts
  split
  · exact getRandomPosts_length db user rv count
  · simp [List.length_take]

theorem getFriendsPosts_mem {db : DB} {user : UserData} {rv : List Nat}
    {count : Int} {c : Candidate} (h : c ∈ getFriendsPosts db user rv count) :
    c.post._id ∉ rv ∧ (c.feedType = "friends" ∨ c.feedType = "random") := by
  unfold getFriendsPosts at h
  split at h
  · have hr := getRandomPosts_mem h
    exact ⟨hr.2.1, Or.inr hr.1⟩
  · rcases List.mem_map.mp h with ⟨p, hp, rfl⟩
    have hp2 := List.mem_filter.mp (mem_sqlOrderBy.mp (List.mem_of_mem_take hp))
    have hc := of_decide_eq_true hp2.2
    exact ⟨hc.2, Or.inl rfl⟩

theorem getFriendsPosts_length (db : DB) (user : UserData) (rv : List Nat)
    (count : Int) : (getFriendsPosts db user rv count).length ≤ count.toNat := by
  unfold getFriendsPosts
  split
  · exact getRandomPosts_length db user rv count
  · simp [List.length_take]

theorem regionalCityPosts_mem {db : DB} {user : UserData} {rv : List Nat}
    {count : Int} {c : Candidate} (h : c ∈ regionalCityPosts db user rv count) :
    c.feedType = "regional-city" ∧ c.post._id ∉ rv ∧
    c.post.username ≠ user.username ∧ c.post.timestamp > db.now - 3 ∧
    user.city ≠ none ∧
    ∃ w ∈ db.users, w.username = c.post.username ∧ w.city = user.city := by
  unfold regionalCityPosts at h
  split at h
  · simp at h
  · next city hcity =>
    rcases List.mem_map.mp h with ⟨p, hp, rfl⟩
    have hp2 := List.mem_filter.mp (mem_sqlOrderBy.mp (List.mem_of_mem_take hp))
    have hc := of_decide_eq_true hp2.2
    refine ⟨rfl, hc.2.2.1, hc.2.1, hc.2.2.2, by simp [hcity], ?_⟩
    rw [hcity]
    exact hc.1

theorem regionalRegionPosts_mem {db : DB} {user : UserData} {rv : List Nat}
    {excl : List Nat} {count : Int} {c : Candidate}
    (h : c ∈ regionalRegionPosts db user rv excl count) :
    c.feedType = "regional-region" ∧ c.post._id ∉ rv ∧ c.post._id ∉ excl ∧
    c.post.username ≠ user.username ∧ c.post.timestamp > db.now - 5 ∧
    user.region ≠ none ∧
    ∃ w ∈ db.users, w.username = c.post.username ∧ w.region = user.region := by
  unfold regionalRegionPosts at h
  split at h
  · simp at h
  · next region hregion =>
    rcases List.mem_map.mp h with ⟨p, hp, rfl⟩
    have hp2 := List.mem_filter.mp (mem_sqlOrderBy.mp (List.mem_of_mem_take hp))
    have hc := of_decide_eq_true hp2.2
    refine ⟨rfl, hc.2.2.1, hc.2.2.2.1, hc.2.1, hc.2.2.2.2, by simp [hregion], ?_⟩
    rw [hregion]
    exact hc.1

theorem regionalCountryPosts_mem {db : DB} {user : UserData} {rv : List Nat}
    {excl : List Nat} {count : Int} {c : Candidate}
    (h : c ∈ regionalCountryPosts db user rv excl count) :
    c.feedType = "regional-country" ∧ c.post._id ∉ rv ∧ c.post._id ∉ excl ∧
    c.post.username ≠ user.username ∧ c.post.timestamp > db.now - 7 ∧
    user.country ≠ none ∧
    ∃ w ∈ db.users, w.username = c.post.username ∧ w.country = user.country := by
  unfold regionalCountryPosts at h
  split at h
  · simp at h
  · next country hcountry =>
    rcases List.mem_map.mp h with ⟨p, hp, rfl⟩
    have hp2 := List.mem_filter.mp (mem_sqlOrderBy.mp (List.mem_of_mem_take hp))
    have hc := of_decide_eq_true hp2.2
    refine ⟨rfl, hc.2.2.1, hc.2.2.2.1, hc.2.1, hc.2.2.2.2, by simp [hcountry], ?_⟩
    rw [hcountry]
    exact hc.1

theorem mem_ite_append {P : Prop} [Decidable P] {x : α} {l r : List α}
    (h : x ∈ (if P then l ++ r else l)) : x ∈ l ∨ x ∈ r := by
  split at h
  · exact List.mem_append.mp h
  · exact Or.inl h

theorem regionalGeoPosts_mem {db : DB} {user : UserData} {rv : List Nat}
    {count : Int} {c : Candidate} (h : c ∈ regionalGeoPosts db user rv count) :
    c ∈ regionalCityPosts db user rv count ∨
    (∃ excl n, c ∈ regionalRegionPosts db user rv excl n) ∨
    (∃ excl n, c ∈ regionalCountryPosts db user rv excl n) := by
  simp only [regionalGeoPosts] at h
  rcases mem_ite_append h with h1 | h1
  · rcases mem_ite_append h1 with h2 | h2
    · exact Or.inl h2
    · exact Or.inr (Or.inl ⟨_, _, h2⟩)
  · exact Or.inr (Or.inr ⟨_, _, h1⟩)

theorem regionalGeoPosts_ok {db : DB} {user : UserData} {rv : List Nat}
    {count : Int} {c : Candidate} (h : c ∈ regionalGeoPosts db user rv count) :
    RegionalCandidateOk db user rv c := by
  rcases regionalGeoPosts_mem h with h' | ⟨excl, n, h'⟩ | ⟨excl, n, h'⟩
  · obtain ⟨ht, h1, h2, h3, h4, h5⟩ := regionalCityPosts_mem h'
    refine ⟨h1, by simp [ht], fun _ => ⟨h2, h3, h4, h5⟩, ?_, ?_, ?_⟩ <;>
      · rw [ht]; intro hcontra; exact absurd hcontra (by decide)
  · obtain ⟨ht, h1, hexcl, h2, h3, h4, h5⟩ := regionalRegionPosts_mem h'
    refine ⟨h1, by simp [ht], ?_, fun _ => ⟨h2, h3, h4, h5⟩, ?_, ?_⟩ <;>
      · rw [ht]; intro hcontra; exact absurd hcontra (by decide)
  · obtain ⟨ht, h1, hexcl, h2, h3, h4, h5⟩ := regionalCountryPosts_mem h'
    refine ⟨h1, by simp [ht], ?_, ?_, fun _ => ⟨h2, h3, h4, h5⟩, ?_⟩ <;>
      · rw [ht]; intro hcontra; exact absurd hcontra (by decide)

theorem getRegionalPosts_ok {db : DB} {user : UserData} {rv : List Nat}
    {count : Int} {c : Candidate} (h : c ∈ getRegionalPosts db user rv count) :
    RegionalCandidateOk db user rv c := by
  unfold getRegionalPosts at h
  split at h
  · simp at h
  · have h' := List.mem_of_mem_take h
    split at h'
    · rcases List.mem_append.mp h' with h'' | h''
      · exact regionalGeoPosts_ok h''
      · rcases List.mem_map.mp h'' with ⟨c', hc', rfl⟩
        obtain ⟨_, hrv, hts⟩ := getRandomPosts_mem hc'
        exact ⟨fun hmem => hrv (List.mem_append.mpr (Or.inl hmem)),
          (by decide : ("regional-fallback" : String) ∈
            ["regional-city", "regional-region", "regional-country",
              "regional-fallback"]),
          fun hcontra => absurd hcontra
            (by decide : ¬ (("regional-fallback" : String) = "regional-city")),
          fun hcontra => absurd hcontra
            (by decide : ¬ (("regional-fallback" : String) = "regional-region")),
          fun hcontra => absurd hcontra
            (by decide : ¬ (("regional-fallback" : String) = "regional-country")),
          fun _ => hts⟩
    · exact regionalGeoPosts_ok h'

theorem getRegionalPosts_length (db : DB) (user : UserData) (rv : List Nat)
    (count : Int) : (getRegionalPosts db user rv count).length ≤ count.toNat := by
  unfold getRegionalPosts
  split
  · simp
  · simp [List.length_take]

theorem collectSourcePosts_mem {db : DB} {user : UserData} {rv : List Nat}
    {c : Candidate} (h : c ∈ collectSourcePosts db user rv) :
    c.post._id ∉ rv := by
  unfold collectSourcePosts at h
  rcases List.mem_append.mp h with h1 | h1
  · rcases List.mem_append.mp h1 with h2 | h2
    · rcases List.mem_append.mp h2 with h3 | h3
      · exact (getRandomPosts_mem h3).2.1
      · exact (getFollowingPosts_mem h3).1
    · exact (getFriendsPosts_mem h2).1
  · exact (getRegionalPosts_ok h1).1

theorem topUpPosts_mem {db : DB} {user : UserData} {rv : List Nat}
    {posts : List Candidate} {limit : Nat} {c : Candidate}
    (h : c ∈ topUpPosts db user rv posts limit) :
    c.post._id ∉ rv ∧ c.post._id ∉ posts.map (fun c => c.post._id) := by
  unfold topUpPosts at h
  split at h
  · have hrv := (getRandomPosts_mem h).2.1
    exact ⟨fun hmem => hrv (List.mem_append.mpr (Or.inl hmem)),
      fun hmem => hrv (List.mem_append.mpr (Or.inr hmem))⟩
  · simp at h

theorem generateFeedComposition_mem {db : DB} {user : UserData} {rv : List Nat}
    {rand : Nat → Nat} {limit : Nat} {c : Candidate}
    (h : c ∈ generateFeedComposition db user rv rand limit) :
    c ∈ collectSourcePosts db user rv ∨
    c ∈ topUpPosts db user rv (collectSourcePosts db user rv) limit := by
  simp only [generateFeedComposition] at h
  exact List.mem_append.mp (mem_shuffleArray (List.mem_of_mem_take h))

/-! The claims. -/

/-- C1, counterexample.  The claim says no two candidates in a FeedPage
share a post identifier.  With one eligible post (id 1) whose author alice
follows, `generateFeedComposition` returns a page of four candidates all
carrying post id 1 (the discovery, following and friends-fallback fetchers
and the regional discovery fallback each re-offer it, because each receives
only the caller's recently-viewed set as exclusion), so the page is not
duplicate-free. -/
theorem c1_counterexample :
    ¬ ((generateFeedComposition dbOne aliceFollows [] randZero 10).map
        (fun c => c.post._id)).Nodup := by
  decide

/-- C1, amended: a FeedPage can contain the same post id more than once
when different source fetchers supply the same post; what does hold is
that the final top-up discovery fetch never duplicates an id already
collected by the four source fetchers, because it alone receives the
merged exclusion set. -/
theorem c1_topup_no_duplicate (db : DB) (user : UserData) (rv : List Nat)
    (limit : Nat) :
    ∀ i ∈ (topUpPosts db user rv (collectSourcePosts db user rv) limit).map
        (fun c => c.post._id),
      i ∉ (collectSourcePosts db user rv).map (fun c => c.post._id) := by
  intro i hi
  rcases List.mem_map.mp hi with ⟨c, hc, rfl⟩
  exact (topUpPosts_mem hc).2

/-- Witness for the amended C1: in a six-post repository at page size 12,
post id 5 is supplied by the top-up fetch and indeed absent from the ids
collected by the four source fetchers. -/
theorem c1_topup_no_duplicate_witness :
    (5 : Nat) ∉ (collectSourcePosts dbSix aliceAlone []).map
      (fun c => c.post._id) :=
  c1_topup_no_duplicate dbSix aliceAlone [] 12 5 (by decide)

/-- C2, counterexample.  The claim says every fetcher receives an exclusion
set containing the ids already selected by earlier fetchers, so no fetcher
can re-offer an already-chosen post.  In the one-post repository the
discovery fetcher (first) selects post 1, and the following fetcher
(second) nevertheless returns post 1 again: inside
`generateFeedComposition` both are invoked with the bare recently-viewed
set, as witnessed by the page containing id 1 twice over distinct tags. -/
theorem c2_counterexample :
    (getRandomPosts dbOne aliceFollows [] 4).map (fun c => c.post._id) = [1] ∧
    (getFollowingPosts dbOne aliceFollows [] 3).map (fun c => c.post._id) = [1] ∧
    ((generateFeedComposition dbOne aliceFollows [] randZero 10).map
      (fun c => c.post._id)).count 1 = 4 := by
  refine ⟨by decide, by decide, by decide⟩

/-- C2, amended: during one composition the four source fetchers each
receive only the caller-supplied recently-viewed set; the merged exclusion
set (recently viewed plus all previously collected ids) is passed only to
the final top-up discovery fetch, which therefore can re-offer neither a
recently-viewed post nor an already-chosen one. -/
theorem c2_topup_exclusion (db : DB) (user : UserData) (rv : List Nat)
    (posts : List Candidate) (limit : Nat) :
    ∀ c ∈ topUpPosts db user rv posts limit,
      c.post._id ∉ rv ∧ c.post._id ∉ posts.map (fun c => c.post._id) := by
  intro c hc
  exact topUpPosts_mem hc

/-- Witness for the amended C2: the top-up candidate carrying post 5 in
the six-post fixture avoids both the (empty) recently-viewed set and every
previously collected id. -/
theorem c2_topup_exclusion_witness :
    (⟨freshPost 5, "random"⟩ : Candidate).post._id ∉ ([] : List Nat) ∧
    (⟨freshPost 5, "random"⟩ : Candidate).post._id ∉
      (collectSourcePosts dbSix aliceAlone []).map (fun c => c.post._id) :=
  c2_topup_exclusion dbSix aliceAlone [] (collectSourcePosts dbSix aliceAlone [])
    12 ⟨freshPost 5, "random"⟩ (by decide)

/-- C3, counterexample.  The claim says the FeedPage length equals
min(page size, total distinct eligible posts).  The repository `dbOne`
holds exactly one post (so at most one distinct eligible post exists), yet
for page size 10 the returned page has length 4, because several fetchers
re-offer the same post. -/
theorem c3_counterexample :
    (generateFeedComposition dbOne aliceFollows [] randZero 10).length = 4 ∧
    dbOne.posts.map (fun p => p._id) = [1] := by
  refine ⟨by decide, by decide⟩

/-- C3, amended: the FeedPage length equals the minimum of the requested
page size and the number of candidates collected by the four source
fetchers plus the top-up (counted with multiplicity, since distinct
fetchers may supply the same post); in particular it never exceeds the
requested page size. -/
theorem c3_page_length (db : DB) (user : UserData) (rv : List Nat)
    (rand : Nat → Nat) (limit : Nat) :
    (generateFeedComposition db user rv rand limit).length =
      min limit ((collectSourcePosts db user rv).length +
        (topUpPosts db user rv (collectSourcePosts db user rv) limit).length) ∧
    (generateFeedComposition db user rv rand limit).length ≤ limit := by
  have h : (generateFeedComposition db user rv rand limit).length =
      min limit ((collectSourcePosts db user rv).length +
        (topUpPosts db user rv (collectSourcePosts db user rv) limit).length) := by
    simp only [generateFeedComposition]
    rw [List.length_take, length_shuffleArray, List.length_append]
  exact ⟨h, h ▸ Nat.min_le_left _ _⟩

/-- C4 (confirmed): no candidate of the returned FeedPage has a post id in
the caller-supplied exclusion set — every fetcher's query, the regional
fallback and the top-up all filter the recently-viewed ids out. -/
theorem c4_exclusion_respected (db : DB) (user : UserData) (rv : List Nat)
    (rand : Nat → Nat) (limit : Nat) :
    ∀ c ∈ generateFeedComposition db user rv rand limit, c.post._id ∉ rv := by
  intro c hc
  rcases generateFeedComposition_mem hc with h | h
  · exact collectSourcePosts_mem h
  · exact (topUpPosts_mem h).1

/-- Witness for C4: with post id 2 recently viewed, the page built over the
one-post repository contains the discovery candidate for post 1, whose id
avoids the exclusion set. -/
theorem c4_exclusion_respected_witness :
    (⟨postOne, "random"⟩ : Candidate).post._id ∉ ([2] : List Nat) :=
  c4_exclusion_respected dbOne aliceAlone [2] randZero 10 ⟨postOne, "random"⟩
    (by decide)

theorem getRandomPostsX_ok {dbe : DBE} (user : UserData) (rv : List Nat)
    (count : Int) (hok : dbe.failRandom = false) :
    getRandomPostsX dbe user rv count =
      Except.ok (getRandomPosts dbe.db user rv count) := by
  unfold getRandomPostsX
  split
  · next hc => simp [getRandomPosts, hc]
  · rw [hok]
    simp

/-- C5 (confirmed): if a fetcher's query fails during candidate collection
while the discovery query itself stays reachable, the composer catches the
error, abandons every partial result and answers with exactly the single
discovery-only fetch for the full page size — an `Except.ok` result, not
an error.  (`dbe.failRegional = true` makes the regional fetcher — and
hence the try block — fail whatever the other fetchers did;
`dbe.failRandom = false` is the "repository itself reachable"
hypothesis.) -/
theorem c5_composition_fallback (dbe : DBE) (user : UserData) (rv : List Nat)
    (rand : Nat → Nat) (limit : Nat) (hok : dbe.failRandom = false)
    (hfail : dbe.failRegional = true) :
    generateFeedCompositionX dbe user rv rand limit =
      Except.ok (getRandomPosts dbe.db user rv limit) := by
  have hreg : getRegionalPostsX dbe user rv 1 = Except.error "db error" := by
    unfold getRegionalPostsX
    rw [if_neg (by decide), hfail]
    simp
  have hattempt : ∃ e, feedAttemptX dbe user rv rand limit = Except.error e := by
    unfold feedAttemptX
    rw [getRandomPostsX_ok user rv 4 hok]
    cases hF : getFollowingPostsX dbe user rv 3 with
    | error e => exact ⟨e, rfl⟩
    | ok l1 =>
      cases hFr : getFriendsPostsX dbe user rv 2 with
      | error e => exact ⟨e, rfl⟩
      | ok l2 =>
        rw [hreg]
        exact ⟨"db error", rfl⟩
  rcases hattempt with ⟨e, he⟩
  unfold generateFeedCompositionX
  simp only [he]
  exact getRandomPostsX_ok user rv _ hok

/-- Witness for C5: with only the regional tier queries failing over the
one-post repository, the composition degrades to the plain discovery fetch
for the full page size. -/
theorem c5_composition_fallback_witness :
    generateFeedCompositionX dbeRegionalFail aliceAlone [] randZero 10 =
      Except.ok (getRandomPosts dbOne aliceAlone [] 10) :=
  c5_composition_fallback dbeRegionalFail aliceAlone [] randZero 10 rfl rfl

/-- C6, counterexample.  The claim says the four source fetchers never
throw.  In `src/src/index.js` the fetchers have no internal try/catch: with
the discovery query rejecting, `getRandomPosts` propagates the repository
error to the composer instead of degrading, even for a request of a single
post. -/
theorem c6_counterexample :
    getRandomPostsX dbeAllFail aliceAlone [] 1 = Except.error "db error" := by
  rfl

/-- C6, amended: in `src/unnamed/part_000` each of the four source fetchers
returns at most `count` candidates and never throws — a failing discovery
query degrades to the empty list, and a failing following, friends or
regional query degrades to the discovery fetcher's result; in
`src/src/index.js` the fetchers perform no internal catch and a repository
error propagates to the composer (which recovers, see C5). -/
theorem c6_fetchers_degrade (dbe : DBE) (user : UserData) (rv : List Nat)
    (count : Int) :
    ((getRandomPostsP dbe user rv count).length ≤ count.toNat ∧
     (getFollowingPostsP dbe user rv count).length ≤ count.toNat ∧
     (getFriendsPostsP dbe user rv count).length ≤ count.toNat ∧
     (getRegionalPostsP dbe user rv count).length ≤ count.toNat) ∧
    (dbe.failRandom = true → getRandomPostsP dbe user rv count = []) ∧
    (dbe.failFollowing = true →
      getFollowingPostsP dbe user rv count = getRandomPostsP dbe user rv count) ∧
    (dbe.failFriends = true →
      getFriendsPostsP dbe user rv count = getRandomPostsP dbe user rv count) ∧
    (dbe.failRegional = true →
      getRegionalPostsP dbe user rv count = getRandomPostsP dbe user rv count) := by
  have hrandP : ∀ cnt : Int, (getRandomPostsP dbe user rv cnt).length ≤ cnt.toNat := by
    intro cnt
    unfold getRandomPostsP
    split
    · simp
    · split
      · simp
      · exact getRandomPosts_length dbe.db user rv cnt
  refine ⟨⟨hrandP count, ?_, ?_, ?_⟩, ?_, ?_, ?_, ?_⟩
  · unfold getFollowingPostsP
    split
    · exact hrandP count
    · split
      · exact hrandP count
      · exact getFollowingPosts_length dbe.db user rv count
  · unfold getFriendsPostsP
    split
    · exact hrandP count
    · split
      · exact hrandP count
      · exact getFriendsPosts_length dbe.db user rv count
  · unfold getRegionalPostsP
    split
    · simp
    · split
      · exact hrandP count
      · simp [List.length_take]
  · intro h
    simp [getRandomPostsP, h]
  · intro h
    simp [getFollowingPostsP, h]
  · intro h
    simp [getFriendsPostsP, h]
  · intro h
    unfold getRegionalPostsP
    split
    · next hc => simp [getRandomPostsP, hc]
    · simp [h]

/-- Witness for the amended C6: with every posts query failing and a
request of 5 posts, each part_000 fetcher degrades (discovery to `[]`, the
others to the discovery result) and every bound holds. -/
theorem c6_fetchers_degrade_witness :
    ((getRandomPostsP dbeAllFail aliceAlone [] 5).length ≤ (5 : Int).toNat ∧
     (getFollowingPostsP dbeAllFail aliceAlone [] 5).length ≤ (5 : Int).toNat ∧
     (getFriendsPostsP dbeAllFail aliceAlone [] 5).length ≤ (5 : Int).toNat ∧
     (getRegionalPostsP dbeAllFail aliceAlone [] 5).length ≤ (5 : Int).toNat) ∧
    getRandomPostsP dbeAllFail aliceAlone [] 5 = [] ∧
    getFollowingPostsP dbeAllFail aliceAlone [] 5 =
      getRandomPostsP dbeAllFail aliceAlone [] 5 ∧
    getFriendsPostsP dbeAllFail aliceAlone [] 5 =
      getRandomPostsP dbeAllFail aliceAlone [] 5 ∧
    getRegionalPostsP dbeAllFail aliceAlone [] 5 =
      getRandomPostsP dbeAllFail aliceAlone [] 5 := by
  have h := c6_fetchers_degrade dbeAllFail aliceAlone [] 5
  exact ⟨h.1, h.2.1 rfl, h.2.2.1 rfl, h.2.2.2.1 rfl, h.2.2.2.2 rfl⟩

/-- C7 (confirmed): when the user's `following` list is empty, the
following fetcher delegates entirely to the discovery fetcher, so every
candidate it returns carries the discovery tag `'random'` (and none the
tag `'following'`); the result may also simply be empty. -/
theorem c7_following_empty_delegates (db : DB) (user : UserData)
    (rv : List Nat) (count : Int) (hf : user.following = []) :
    getFollowingPosts db user rv count = getRandomPosts db user rv count ∧
    ∀ c ∈ getFollowingPosts db user rv count, c.feedType = "random" := by
  have he : getFollowingPosts db user rv count = getRandomPosts db user rv count := by
    unfold getFollowingPosts
    rw [if_pos (Or.inr hf)]
  refine ⟨he, ?_⟩
  intro c hc
  rw [he] at hc
  exact (getRandomPosts_mem hc).1

/-- Witness for C7: alice follows nobody, so her following slot is served
by discovery and its (sole) candidate is tagged `'random'`. -/
theorem c7_following_empty_delegates_witness :
    getFollowingPosts dbOne aliceAlone [] 3 = getRandomPosts dbOne aliceAlone [] 3 ∧
    (⟨postOne, "random"⟩ : Candidate).feedType = "random" :=
  ⟨(c7_following_empty_delegates dbOne aliceAlone [] 3 rfl).1,
   (c7_following_empty_delegates dbOne aliceAlone [] 3 rfl).2
     ⟨postOne, "random"⟩ (by decide)⟩

/-- C8 (confirmed): the regional fetcher returns at most `count`
candidates; every returned candidate avoids the caller's exclusion set and
is tagged by the tier that supplied it, with each geographic tier
certifying its author-location match, the exclusion of the requesting
user's own posts and its recency bound (city < 3 days, region < 5 days,
country < 7 days) and the residual discovery fill tagged
`'regional-fallback'`; moreover the region and country tiers exclude every
id already chosen by the earlier tiers of the same call. -/
theorem c8_regional_tiers (db : DB) (user : UserData) (rv : List Nat)
    (count : Int) :
    (getRegionalPosts db user rv count).length ≤ count.toNat ∧
    (∀ c ∈ getRegionalPosts db user rv count, RegionalCandidateOk db user rv c) ∧
    (∀ excl n, ∀ c ∈ regionalRegionPosts db user rv excl n,
      c.post._id ∉ excl) ∧
    (∀ excl n, ∀ c ∈ regionalCountryPosts db user rv excl n,
      c.post._id ∉ excl) :=
  ⟨getRegionalPosts_length db user rv count,
   fun _ hc => getRegionalPosts_ok hc,
   fun _ _ _ hc => (regionalRegionPosts_mem hc).2.2.1,
   fun _ _ _ hc => (regionalCountryPosts_mem hc).2.2.1⟩

/-- Witness for C8: in the located fixture, the regional fetch of two
posts yields at most two candidates and carol's post — supplied by the
region tier after the city tier chose bob's — satisfies all the tier
obligations. -/
theorem c8_regional_tiers_witness :
    (getRegionalPosts dbGeo aliceGeo [] 2).length ≤ (2 : Int).toNat ∧
    RegionalCandidateOk dbGeo aliceGeo [] ⟨carolPost, "regional-region"⟩ :=
  ⟨(c8_regional_tiers dbGeo aliceGeo [] 2).1,
   (c8_regional_tiers dbGeo aliceGeo [] 2).2.1 ⟨carolPost, "regional-region"⟩
     (by decide)⟩

/-- C9 (confirmed): when the recent-view query fails, the View History
Tracker returns the empty set instead of propagating, and the feed request
still succeeds with a page composed exactly as if the exclusion set were
empty; by contrast a failing relationship resolution is fatal and yields
the error outcome. -/
theorem c9_view_history_degrades (repo : Repo) (rand : Nat → Nat) (limit : Nat) :
    (∀ e u, repo.viewsResult = Except.error e →
      repo.userResult = Except.ok (some u) →
      handlePersonalizedFeed repo rand limit =
        FeedOutcome.page (generateFeedComposition repo.db u [] rand limit)) ∧
    (∀ e, repo.userResult = Except.error e →
      handlePersonalizedFeed repo rand limit = FeedOutcome.serverError) := by
  constructor
  · intro e u hv hu
    simp [handlePersonalizedFeed, getRecentlyViewedPosts, hu, hv]
  · intro e hu
    simp [handlePersonalizedFeed, hu]

/-- Witness for C9: failing views with a found user yields the page built
with the empty exclusion set, while a failing relationship query yields
the server-error outcome. -/
theorem c9_view_history_degrades_witness :
    handlePersonalizedFeed repoViewsFail randZero 10 =
      FeedOutcome.page (generateFeedComposition dbOne aliceAlone [] randZero 10) ∧
    handlePersonalizedFeed repoUserFail randZero 10 = FeedOutcome.serverError :=
  ⟨(c9_view_history_degrades repoViewsFail randZero 10).1
     "views query failed" aliceAlone rfl rfl,
   (c9_view_history_degrades repoUserFail randZero 10).2
     "relationship query failed" rfl⟩

/-- C10 (confirmed): for every count at most zero, all four source
fetchers return the empty list — discovery and regional return `[]`
directly, and the following/friends fetchers delegate to discovery, which
returns `[]` for that count. -/
theorem c10_nonpositive_count_empty (db : DB) (user : UserData)
    (rv : List Nat) (count : Int) (hc : count ≤ 0) :
    getRandomPosts db user rv count = [] ∧
    getFollowingPosts db user rv count = [] ∧
    getFriendsPosts db user rv count = [] ∧
    getRegionalPosts db user rv count = [] := by
  have hr : getRandomPosts db user rv count = [] := by
    unfold getRandomPosts
    rw [if_pos hc]
  refine ⟨hr, ?_, ?_, ?_⟩
  · unfold getFollowingPosts
    rw [if_pos (Or.inl hc)]
    exact hr
  · unfold getFriendsPosts
    rw [if_pos (Or.inl hc)]
    exact hr
  · unfold getRegionalPosts
    rw [if_pos hc]

/-- Witness for C10: at count 0 all four fetchers return the empty list
on the one-post repository. -/
theorem c10_nonpositive_count_empty_witness :
    getRandomPosts dbOne aliceAlone [] 0 = [] ∧
    getFollowingPosts dbOne aliceAlone [] 0 = [] ∧
    getFriendsPosts dbOne aliceAlone [] 0 = [] ∧
    getRegionalPosts dbOne aliceAlone [] 0 = [] :=
  c10_nonpositive_count_empty dbOne aliceAlone [] 0 (by decide)

end GetPosts
